import Mathlib

/-!
Verification of the content-driven rendering pipeline of the portfolio
repository (`app/pages/*.py`, `app/navbar.py`).

The Python code is shallowly embedded: JSON values are an inductive type,
Python exceptions are the error side of `Except`, UI components (`rx.*`)
are a tree of nodes carrying the data-relevant attributes (displayed text,
image sources, link targets), and each loader / mapper function of the
source is translated into a Lean function of the same name.  File-system
access is abstracted by a `ReadResult` describing the outcome of
reading-and-JSON-parsing the one content file a loader touches.
-/

set_option autoImplicit false

namespace Portfolio

/-- JSON values, the result of Python `json.load`. -/
inductive Json where
  | null
  | bool (b : Bool)
  | num (n : Int)
  | str (s : String)
  | arr (xs : List Json)
  | obj (fields : List (String × Json))

/-- Python exceptions that the embedded code can raise. -/
inductive PyExc where
  /-- `FileNotFoundError` -/
  | fileNotFound
  /-- an `OSError` other than `FileNotFoundError` (e.g. `PermissionError`) -/
  | osError
  /-- `json.JSONDecodeError` -/
  | jsonDecode
  /-- `KeyError` from `d[k]` on a dict without key `k` -/
  | keyError
  /-- `TypeError` -/
  | typeError
  /-- `AttributeError` -/
  | attributeError
  /-- pydantic `ValidationError` -/
  | validationError
  deriving DecidableEq, Repr

/--
Outcome of opening and JSON-parsing one content file.  The loaders in the
source read a single file (the "primary" and "fallback" paths of the
contact/education/work loaders denote the same `assets/<file>.json`
relative to the working directory); only the about loader has a genuinely
distinct fallback file and takes two `ReadResult`s.
-/
inductive ReadResult where
  /-- the file does not exist: `os.path.exists` is false and `open`
      raises `FileNotFoundError` -/
  | missing
  /-- the file exists (`os.path.exists` is true) but `open`/read raises an
      `OSError` such as `PermissionError` -/
  | unreadable
  /-- the file is readable but `json.load` raises `JSONDecodeError` -/
  | malformed
  /-- the file is readable and parses to the JSON value `j` -/
  | ok (j : Json)

/-- A read that did not produce a JSON value (absent, unreadable, or
unparsable file). -/
def ReadResult.isFailure : ReadResult → Bool
  | .ok _ => false
  | _ => true

/-- Python truthiness of a JSON value. -/
def Json.truthy : Json → Bool
  | .null => false
  | .bool b => b
  | .num n => n != 0
  | .str s => s ≠ ""
  | .arr xs => !xs.isEmpty
  | .obj fs => !fs.isEmpty

/--
Python `str()` of a JSON value, as used by f-string interpolation.
Scalar cases are exact; the container cases approximate the Python `repr`
rendering (no claim evaluates `display` on a container). -/
def Json.display : Json → String
  | .null => "None"
  | .bool b => if b then "True" else "False"
  | .num n => toString n
  | .str s => s
  | .arr _ => "[...]"
  | .obj _ => "\x7b...\x7d"

/-- `d[k]` on a Python value: `KeyError` when the key is absent,
`TypeError` when the value is not a dict. -/
def Json.index (j : Json) (k : String) : Except PyExc Json :=
  match j with
  | .obj fs =>
    match fs.lookup k with
    | some v => .ok v
    | none => .error .keyError
  | _ => .error .typeError

/-- `d.get(k, dflt)` on a Python value: `AttributeError` when the value is
not a dict (lists/strings/ints have no `.get`). -/
def Json.getAttrD (j : Json) (k : String) (dflt : Json) : Except PyExc Json :=
  match j with
  | .obj fs => .ok ((fs.lookup k).getD dflt)
  | _ => .error .attributeError

/-- Iterating a Python value with `for x in v`: lists yield their
elements, strings their characters, dicts their keys; other values raise
`TypeError`. -/
def Json.asList : Json → Except PyExc (List Json)
  | .arr xs => .ok xs
  | .str s => .ok (s.data.map fun c => .str (String.singleton c))
  | .obj fs => .ok (fs.map fun f => .str f.1)
  | _ => .error .typeError

/-- A Python list comprehension `[f(x) for x in l]` where the body may
raise: the first exception aborts the whole comprehension. -/
def mapPy {α β : Type} (f : α → Except PyExc β) : List α → Except PyExc (List β)
  | [] => .ok []
  | x :: xs =>
    match f x with
    | .error e => .error e
    | .ok y =>
      match mapPy f xs with
      | .error e => .error e
      | .ok ys => .ok (y :: ys)

/-- All-or-nothing mapping over `Option`, used to phrase "every record of
the list validates". -/
def mapOpt {α β : Type} (f : α → Option β) : List α → Option (List β)
  | [] => some []
  | x :: xs =>
    match f x with
    | none => none
    | some y =>
      match mapOpt f xs with
      | none => none
      | some ys => some (y :: ys)

/--
The data-relevant skeleton of a Reflex component (`rx.*`).  Cosmetic
props (sizes, colors, margins) are dropped; text content, image sources
and link targets are kept.  `rx.cond` nodes are evaluated at their
(static, Python-side) condition, and layout containers
(`vstack`/`hstack`/`card`/`grid`/...) become `group` nodes tagged with
their kind. -/
inductive Node where
  | text (s : String)
  | image (src : String)
  | icon (tag : String)
  | badge (child : Node)
  | link (href : String) (child : Node)
  | group (kind : String) (children : List Node)
  | empty

mutual

/-- All text fragments displayed inside a component, in render order. -/
def Node.texts : Node → List String
  | .text s => [s]
  | .image _ => []
  | .icon _ => []
  | .badge c => Node.texts c
  | .link _ c => Node.texts c
  | .group _ cs => Node.textsList cs
  | .empty => []

/-- `Node.texts` over a list of children. -/
def Node.textsList : List Node → List String
  | [] => []
  | c :: cs => Node.texts c ++ Node.textsList cs

end

mutual

/-- The displayed text of every badge in a component, in render order. -/
def Node.badgeTexts : Node → List String
  | .text _ => []
  | .image _ => []
  | .icon _ => []
  | .badge c => Node.texts c
  | .link _ c => Node.badgeTexts c
  | .group _ cs => Node.badgeTextsList cs
  | .empty => []

/-- `Node.badgeTexts` over a list of children. -/
def Node.badgeTextsList : List Node → List String
  | [] => []
  | c :: cs => Node.badgeTexts c ++ Node.badgeTextsList cs

end

mutual

/-- The `src` of every image in a component, in render order. -/
def Node.imageSrcs : Node → List String
  | .text _ => []
  | .image src => [src]
  | .icon _ => []
  | .badge c => Node.imageSrcs c
  | .link _ c => Node.imageSrcs c
  | .group _ cs => Node.imageSrcsList cs
  | .empty => []

/-- `Node.imageSrcs` over a list of children. -/
def Node.imageSrcsList : List Node → List String
  | [] => []
  | c :: cs => Node.imageSrcs c ++ Node.imageSrcsList cs

end

/-! ### Data models (`pydantic` classes of the source) -/

/-- `ContactLink` (`contact_me_page.py` lines 12-17).  `color` is typed
`LiteralAccentColor` in the source; the literal-set membership check is
not exercised by any claim and the field is kept as a string. -/
structure ContactLink where
  name : String
  icon : String
  href : String
  color : String
  deriving DecidableEq, Repr

/-- `ContactData` (`contact_me_page.py` lines 19-25).  Exactly these five
fields are declared; `name` defaults to `"Prabhat Racherla"`. -/
structure ContactData where
  profile_pic : String
  resume : String
  qrcode : String
  links : List ContactLink
  name : String := "Prabhat Racherla"
  deriving DecidableEq, Repr

/-- `DEFAULT_COLOR` (`projects_page.py` line 10). -/
def DEFAULT_COLOR : String := "indigo"

/-- `ProjectData` (`projects_page.py` lines 13-31). -/
structure ProjectData where
  title : String
  short_description : String
  full_description : List String
  teamsize : Int
  href : String
  languages_used : List String
  extra_href : Option String := none
  extra_href_display_name : Option String := none
  image : Option String := none
  color : String := DEFAULT_COLOR
  tech_stack : List String := []
  deriving DecidableEq, Repr

/-! ### pydantic v1 field validation

pydantic v1 (as pinned by reflex) coerces scalars into `str`/`int`
fields; the scalar coercions are modelled, the exotic ones (digit strings
to int, bytes) are not exercised by any claim. -/

/-- A JSON value accepted for a pydantic v1 `str` field. -/
def Json.asStr? : Json → Option String
  | .str s => some s
  | .num n => some (toString n)
  | .bool b => some (if b then "True" else "False")
  | _ => none

/-- A JSON value accepted for a pydantic v1 `int` field. -/
def Json.asInt? : Json → Option Int
  | .num n => some n
  | .bool b => some (if b then 1 else 0)
  | _ => none

/-- A JSON value accepted for a pydantic v1 `List[str]` field. -/
def Json.asStrList? (j : Json) : Option (List String) :=
  match j with
  | .arr xs => mapOpt Json.asStr? xs
  | _ => none

/-- A required `str` field of a pydantic model. -/
def reqStr (fs : List (String × Json)) (k : String) : Except PyExc String :=
  match fs.lookup k with
  | some v =>
    match v.asStr? with
    | some s => .ok s
    | none => .error .validationError
  | none => .error .validationError

/-- An optional `Optional[str] = None` field of a pydantic model. -/
def optStr (fs : List (String × Json)) (k : String) : Except PyExc (Option String) :=
  match fs.lookup k with
  | none => .ok none
  | some .null => .ok none
  | some v =>
    match v.asStr? with
    | some s => .ok (some s)
    | none => .error .validationError

/-- A `str` field with a default value. -/
def defStr (fs : List (String × Json)) (k : String) (dflt : String) : Except PyExc String :=
  match fs.lookup k with
  | none => .ok dflt
  | some v =>
    match v.asStr? with
    | some s => .ok s
    | none => .error .validationError

/-- A required `List[str]` field of a pydantic model. -/
def reqStrList (fs : List (String × Json)) (k : String) : Except PyExc (List String) :=
  match fs.lookup k with
  | some v =>
    match v.asStrList? with
    | some l => .ok l
    | none => .error .validationError
  | none => .error .validationError

/-- `ContactLink(**d)`: validation of one entry of `links`. -/
def parseContactLink (j : Json) : Except PyExc ContactLink :=
  match j with
  | .obj fs => do
    let name ← reqStr fs "name"
    let icon ← reqStr fs "icon"
    let href ← reqStr fs "href"
    let color ← reqStr fs "color"
    .ok { name := name, icon := icon, href := href, color := color }
  | _ => .error .validationError

/-- `ContactData(**data)`: pydantic validation of the contact JSON object
(`TypeError` when `data` is not a dict, `ValidationError` on a schema
mismatch). -/
def parseContactData (j : Json) : Except PyExc ContactData :=
  match j with
  | .obj fs => do
    let pic ← reqStr fs "profile_pic"
    let resume ← reqStr fs "resume"
    let qr ← reqStr fs "qrcode"
    let links ←
      match fs.lookup "links" with
      | some (.arr xs) => mapPy parseContactLink xs
      | some _ => .error .validationError
      | none => .error .validationError
    let name ← defStr fs "name" "Prabhat Racherla"
    .ok { profile_pic := pic, resume := resume, qrcode := qr, links := links, name := name }
  | _ => .error .typeError

/-- `ProjectData(**project_dict)`: pydantic validation of one project
record. -/
def parseProjectData (j : Json) : Except PyExc ProjectData :=
  match j with
  | .obj fs => do
    let title ← reqStr fs "title"
    let short ← reqStr fs "short_description"
    let full ← reqStrList fs "full_description"
    let teamsize ←
      match fs.lookup "teamsize" with
      | some v =>
        match v.asInt? with
        | some n => Except.ok n
        | none => Except.error PyExc.validationError
      | none => Except.error PyExc.validationError
    let href ← reqStr fs "href"
    let langs ← reqStrList fs "languages_used"
    let extraHref ← optStr fs "extra_href"
    let extraName ← optStr fs "extra_href_display_name"
    let image ← optStr fs "image"
    let color ← defStr fs "color" DEFAULT_COLOR
    let tech ←
      match fs.lookup "tech_stack" with
      | none => Except.ok ([] : List String)
      | some v =>
        match v.asStrList? with
        | some l => Except.ok l
        | none => Except.error PyExc.validationError
    .ok { title := title, short_description := short, full_description := full,
          teamsize := teamsize, href := href, languages_used := langs,
          extra_href := extraHref, extra_href_display_name := extraName,
          image := image, color := color, tech_stack := tech }
  | _ => .error .typeError

/-! ### Content loaders -/

/-- `load_work_data` (`work_page.py` lines 10-26): returns the raw parsed
JSON; catches only `FileNotFoundError` and `json.JSONDecodeError`
(returning `[]` with a printed diagnostic), so any other `OSError`
propagates to the caller. -/
def load_work_data (fs : ReadResult) : Except PyExc Json :=
  match fs with
  | .missing => .ok (.arr [])
  | .unreadable => .error .osError
  | .malformed => .ok (.arr [])
  | .ok j => .ok j

/-- `load_education_data` (`education_page.py` lines 10-21): returns the
raw parsed JSON; `except Exception` catches every failure and yields
`[]`. -/
def load_education_data (fs : ReadResult) : Json :=
  match fs with
  | .ok j => j
  | _ => .arr []

/-- One iteration of the validation loop of `load_projects_data`
(`projects_page.py` lines 67-74): a record that validates gets
`tech_stack` overwritten with `languages_used` and survives
(`.ok (some p)`); a dict record that fails `ProjectData` validation is
dropped after the handler prints its diagnostic (`.ok none`); for a
non-dict record the diagnostic itself evaluates
`project_dict.get("title", ...)` on a value with no `.get`, so the
handler raises `AttributeError` (`.error`), aborting the loop. -/
def processProject (d : Json) : Except PyExc (Option ProjectData) :=
  match parseProjectData d with
  | .ok p => .ok (some { p with tech_stack := p.languages_used })
  | .error _ =>
    match d with
    | .obj _ => .ok none
    | _ => .error .attributeError

/-- The validation loop of `load_projects_data`: survivors are collected
in order, a dropped record is skipped, and an exception raised by an
iteration aborts the whole loop. -/
def processProjects : List Json → Except PyExc (List ProjectData)
  | [] => .ok []
  | d :: ds =>
    match processProject d with
    | .error e => .error e
    | .ok none => processProjects ds
    | .ok (some p) =>
      match processProjects ds with
      | .error e => .error e
      | .ok ps => .ok (p :: ps)

/-- A record that is a dict and validates, together with its processed
form — the hypothesis form for "every record of the list validates". -/
def validProject (d : Json) : Option ProjectData :=
  match parseProjectData d with
  | .ok p => some { p with tech_stack := p.languages_used }
  | .error _ => none

/-- `load_projects_data` (`projects_page.py` lines 36-77): failures of the
file read/parse yield `[]`; a parsed value is iterated and each record
validated individually (iterating a non-iterable top-level value raises
`TypeError` outside any handler, and a non-dict record aborts the loop
through its diagnostic). -/
def load_projects_data (fs : ReadResult) : Except PyExc (List ProjectData) :=
  match fs with
  | .missing => .ok []
  | .unreadable => .ok []
  | .malformed => .ok []
  | .ok j =>
    match j.asList with
    | .ok items => processProjects items
    | .error e => .error e

/-- The fallback record constructed at `contact_me_page.py` lines 50-55
(`name` takes its declared default). -/
def contactFallback : ContactData :=
  { profile_pic := "", resume := "", qrcode := "", links := [] }

/-- `load_contact_data` (`contact_me_page.py` lines 30-55): the whole body
is wrapped in `except Exception`, so every failure (absent, unreadable or
unparsable file, schema mismatch) yields `contactFallback`. -/
def load_contact_data (fs : ReadResult) : ContactData :=
  match fs with
  | .ok j =>
    match parseContactData j with
    | .ok cd => cd
    | .error _ => contactFallback
  | _ => contactFallback

/-- The empty default of the about loader (`about_page.py` lines 30/40/43). -/
def aboutDefault : Json :=
  .obj [("standard_bio", .str ""), ("personal_insights", .arr []),
        ("my_selfie", .bool false), ("footnote", .obj [])]

/-- The file the about loader ends up opening: `about_page.py` lines
17-19 switch to the bare filename `about_me_data.json` (a genuinely
different path) when `assets/about_me_data.json` does not exist. -/
def aboutEffectiveFile (primary fallbackFile : ReadResult) : ReadResult :=
  match primary with
  | .missing => fallbackFile
  | _ => primary

/-- `load_about_me_data` (`about_page.py` lines 11-43): any read/parse
failure, a non-object value, or a missing required key yields
`aboutDefault`; a valid object gets `footnote` defaulted to `{}` when
absent. -/
def load_about_me_data (primary fallbackFile : ReadResult) : Json :=
  match aboutEffectiveFile primary fallbackFile with
  | .ok (.obj fields) =>
    if ((fields.lookup "standard_bio").isSome
        && (fields.lookup "personal_insights").isSome
        && (fields.lookup "my_selfie").isSome) then
      if (fields.lookup "footnote").isSome then .obj fields
      else .obj (fields ++ [("footnote", .obj [])])
    else aboutDefault
  | _ => aboutDefault

/-- The Python call `s.lstrip` with a slash argument: drop every leading `/`. -/
def lstripSlash (s : String) : String :=
  ⟨s.data.dropWhile (· == '/')⟩

/-- `get_resume_path` (`navbar.py` lines 12-36): reads
`assets/contact_me.json` at call time; on success returns
the lstrip-prefixed path for a truthy string `resume` field and `""`
otherwise; every exception (absent/unreadable/unparsable file, `.get` on
a non-dict, `.lstrip` on a truthy non-string) is caught and yields `""`. -/
def get_resume_path (fs : ReadResult) : String :=
  match fs with
  | .ok (.obj fields) =>
    match (fields.lookup "resume").getD (.str "") with
    | .str s => if s ≠ "" then "/" ++ lstripSlash s else ""
    | _ => ""
  | _ => ""

/-! ### Contact page components (`contact_me_page.py`) -/

/-- `get_profile_image_path` (`contact_me_page.py` lines 62-66):
`f"/{CONTACT_DATA.profile_pic}"` when the field is truthy, else `""`. -/
def get_profile_image_path (cd : ContactData) : String :=
  if cd.profile_pic ≠ "" then "/" ++ cd.profile_pic else ""

/-- `get_qrcode_image_path` (`contact_me_page.py` lines 68-72). -/
def get_qrcode_image_path (cd : ContactData) : String :=
  if cd.qrcode ≠ "" then "/" ++ cd.qrcode else ""

/-- `contact_link_item` (`contact_me_page.py` lines 81-125): one linked
row per contact link. -/
def contact_link_item (l : ContactLink) : Node :=
  .link l.href (.group "hstack" [.icon l.icon, .group "vstack" [.text l.href]])

/-- `STATIC_CONTACT_LINKS` (`contact_me_page.py` lines 129-131): one
component per entry of `links`, by list comprehension. -/
def STATIC_CONTACT_LINKS (cd : ContactData) : List Node :=
  cd.links.map contact_link_item

/-- `qrcode_section` (`contact_me_page.py` lines 134-171): empty box when
the qrcode path is empty. -/
def qrcode_section (cd : ContactData) : Node :=
  if get_qrcode_image_path cd = "" then .group "box" []
  else
    .group "center" [.group "vstack"
      [.text "Download Me", .image (get_qrcode_image_path cd)]]

/-- `profile_image_component` (`contact_me_page.py` lines 173-189). -/
def profile_image_component (cd : ContactData) : Node :=
  if get_profile_image_path cd = "" then .group "box" []
  else .image (get_profile_image_path cd)

/-! ### Projects page components (`projects_page.py`) -/

/-- The `teamsize_badge` of `project_card` (`projects_page.py` lines
261-277): `rx.cond(project.teamsize == 1, "Individual",
"Team of " + project.teamsize.to(string))`. -/
def teamsize_badge (p : ProjectData) : Node :=
  .badge (.text (if p.teamsize = 1 then "Individual"
                 else "Team of " ++ toString p.teamsize))

/-- The `tech_stack_content` of `project_card` (`projects_page.py` lines
280-303): rendered only when `tech_stack` is non-empty. -/
def tech_stack_content (p : ProjectData) : Node :=
  if p.tech_stack.length > 0 then
    .group "vstack"
      [.text "Tech Stack:",
       .group "hstack" (p.tech_stack.map fun t => .badge (.text t))]
  else .empty

/-- The conditional `project_image` of `project_dialog` (`projects_page.py`
lines 114-133): `rx.cond(project.image, rx.center(rx.image(src=
project.image.to(str))))` — the filename is used verbatim as `src`. -/
def project_dialog_image (p : ProjectData) : Node :=
  match p.image with
  | some s => if s ≠ "" then .group "center" [.image s] else .empty
  | none => .empty

/-- The `research_paper_link_section` of `project_dialog`
(`projects_page.py` lines 143-169): shown only when `extra_href` is set;
its label falls back to `"Research Paper: "` when
`extra_href_display_name` is unset. -/
def research_paper_link_section (p : ProjectData) : Node :=
  match p.extra_href with
  | some h =>
    if h ≠ "" then
      .group "hstack"
        [.text (match p.extra_href_display_name with
                | some n => if n ≠ "" then n ++ ": " else "Research Paper: "
                | none => "Research Paper: "),
         .link h (.text "Link")]
    else .empty
  | none => .empty

/-- `project_dialog` (`projects_page.py` lines 91-251). -/
def project_dialog (p : ProjectData) : Node :=
  .group "dialog"
    [.group "heading" [.text p.title],
     .group "list" (p.full_description.map fun s => .text s),
     .group "hstack" [.text "Source Code: ", .link p.href (.text p.href)],
     project_dialog_image p,
     research_paper_link_section p]

/-- `project_card` (`projects_page.py` lines 256-415). -/
def project_card (p : ProjectData) : Node :=
  .group "vstack"
    [.group "box"
      [.group "vstack"
        [.text p.title,
         teamsize_badge p,
         .group "vstack"
           [.text p.short_description,
            tech_stack_content p,
            .group "hstack" [.text "Source Code:", .link p.href (.text "Link")]]]],
     .group "box" [project_dialog p]]

/-- The grid of `projects` (`projects_page.py` lines 425-440): one
`rx.card`-wrapped `project_card` per record, via `rx.foreach`. -/
def projects_grid (l : List ProjectData) : Node :=
  .group "grid" (l.map fun p => .group "card" [project_card p])

/-- `projects` (`projects_page.py` lines 419-447). -/
def projects_comp (l : List ProjectData) : Node :=
  .group "center" [.group "vstack" [projects_grid l]]

/-! ### Work page components (`work_page.py`) -/

/-- `tech_stack_row` (`work_page.py` lines 33-52): one badge per entry. -/
def tech_stack_row (tech : List Json) : Node :=
  .group "flex" (tech.map fun t => .badge (.text t.display))

/-- `project_details` (`work_page.py` lines 55-101), the deepest nesting
level: title, bullet list, technology badges.  Missing required keys
raise `KeyError`. -/
def project_details (project : Json) : Except PyExc Node := do
  let title ← project.index "title"
  let descs ← (← project.index "description").asList
  let tech ← (← project.index "technology_stack").asList
  .ok (.group "box"
    [.group "vstack"
      ([.text title.display]
        ++ descs.map (fun d => Node.text ("• " ++ d.display))
        ++ [tech_stack_row tech])])

/-- `role_section` (`work_page.py` lines 103-172), nesting level 2. -/
def role_section (role : Json) : Except PyExc Node := do
  let title ← role.index "title"
  let dateRange ← role.index "date_range"
  let projs ← (← role.index "projects").asList
  let projNodes ← mapPy project_details projs
  .ok (.group "box"
    [.group "vstack"
      ([.group "box" [.text title.display, .text dateRange.display]]
        ++ projNodes)])

/-- Line 184 of `work_page.py`:
`full_logo_path = f"/{logo_filename}" if logo_filename else None` —
`None`, not the empty string, when the field is absent or falsy. -/
def work_full_logo_path (logo : Json) : Option String :=
  if logo.truthy then some ("/" ++ logo.display) else none

/-- `company_section` (`work_page.py` lines 174-257), nesting level 1:
`company` and `roles` are accessed with `[]` (raising `KeyError` when
absent); `display_name`, `logo`, `href`, `color` use `.get` defaults. -/
def company_section (companyData : Json) : Except PyExc Node := do
  let company ← companyData.index "company"
  let displayName ← companyData.getAttrD "display_name" company
  let logo ← companyData.getAttrD "logo" .null
  let companyHref ← companyData.getAttrD "href" (.str "#")
  let linkedLogo :=
    match work_full_logo_path logo with
    | some p => Node.link companyHref.display (.image p)
    | none => Node.group "box" []
  let linkedHeading := Node.link companyHref.display
    (.group "heading" [.text displayName.display])
  let roles ← (← companyData.index "roles").asList
  let roleNodes ← mapPy role_section roles
  .ok (.group "card"
    [.group "vstack"
      ([.group "hstack" [linkedLogo, linkedHeading]] ++ roleNodes)])

/-- `work` (`work_page.py` lines 260-274): one `company_section` per
loaded record, concatenated in source order into a vstack. -/
def work_comp (data : Json) : Except PyExc Node := do
  let items ← data.asList
  let sections ← mapPy company_section items
  .ok (.group "center" [.group "vstack" sections])

/-! ### Education page components (`education_page.py`) -/

/-- `gpa_badge` (`education_page.py` lines 27-36): the `details` value is
rendered whole inside the badge; no splitting happens. -/
def gpa_badge (gpaDetail : Json) : Node :=
  .badge (.text gpaDetail.display)

/-- `linked_logo` (`education_page.py` lines 38-59). -/
def linked_logo (fullLogoPath : String) (cardHref : String) : Node :=
  if fullLogoPath ≠ "" then .link cardHref (.image fullLogoPath)
  else .group "box" []

/-- `title_section` (`education_page.py` lines 61-87): `institution` is a
required key. -/
def title_section (edu : Json) (logoComp : Node) : Except PyExc Node := do
  let inst ← edu.index "institution"
  let cardHref ← edu.getAttrD "href" (.str "#")
  .ok (.group "hstack" [logoComp, .link cardHref.display (.text inst.display)])

/-- `desktop_education_details` (`education_page.py` lines 91-159): the
GPA label is the fixed literal `"GPA: "`, independent of `details`. -/
def desktop_education_details (edu : Json) (gpaComp : Node) : Except PyExc Node := do
  let degree ← edu.index "degree"
  let location ← edu.index "location"
  let dateRange ← edu.index "date_range"
  .ok (.group "vstack"
    [.text degree.display,
     .group "hstack"
       [.text location.display, .text "|", .text "GPA: ", gpaComp,
        .text "|", .text dateRange.display]])

/-- `mobile_education_details` (`education_page.py` lines 163-235): the
GPA label is the fixed literal `"GPA:"`. -/
def mobile_education_details (edu : Json) (gpaComp : Node) : Except PyExc Node := do
  let degree ← edu.index "degree"
  let location ← edu.index "location"
  let dateRange ← edu.index "date_range"
  .ok (.group "vstack"
    [.group "box" [.text degree.display],
     .text location.display,
     .group "hstack" [.text "GPA:", gpaComp],
     .text dateRange.display])

/-- Line 251 of `education_page.py`:
`full_logo_path = rx.cond(logo_filename, "/" + logo_filename, "")` — the
eager `"/" + logo_filename` raises `TypeError` on a non-string value. -/
def education_full_logo_path (logo : Json) : Except PyExc String :=
  match logo with
  | .str s => .ok (if s ≠ "" then "/" ++ s else "")
  | _ => .error .typeError

/-- Line 257 of `education_page.py`: same pattern for `campus_pic`. -/
def education_campus_path (campus : Json) : Except PyExc String :=
  match campus with
  | .str s => .ok (if s ≠ "" then "/" ++ s else "")
  | _ => .error .typeError

/-- `education_card` (`education_page.py` lines 239-324): optional fields
via `.get` with defaults; `institution`, `degree`, `location`,
`date_range` required; the GPA badge receives the raw `details` value. -/
def education_card (edu : Json) : Except PyExc Node := do
  let logo ← edu.getAttrD "logo" (.str "")
  let campus ← edu.getAttrD "campus_pic" (.str "")
  let cardHref ← edu.getAttrD "href" (.str "#")
  let details ← edu.getAttrD "details" (.str "")
  let gpaComp := gpa_badge details
  let fullLogoPath ← education_full_logo_path logo
  let logoComp := linked_logo fullLogoPath cardHref.display
  let titleSec ← title_section edu logoComp
  let campusPath ← education_campus_path campus
  let campusImage :=
    if campusPath ≠ "" then Node.link cardHref.display (.group "box" [.image campusPath])
    else Node.group "box" []
  let deskDetails ← desktop_education_details edu gpaComp
  let mobDetails ← mobile_education_details edu gpaComp
  .ok (.group "vstack"
    [titleSec,
     .group "fragment" [deskDetails, mobDetails],
     campusImage,
     .group "vstack" []])

/-- `education` (`education_page.py` lines 328-355): one `rx.card`-wrapped
`education_card` per record via `rx.foreach`, in source order. -/
def education_comp (data : Json) : Except PyExc Node := do
  let items ← data.asList
  let cards ← mapPy education_card items
  .ok (.group "center"
    [.group "grid" (cards.map fun c => .group "card" [c])])

/-! ### About page components (`about_page.py`) -/

/-- `personal_insight_card` (`about_page.py` lines 93-120). -/
def personal_insight_card (d : Json) : Except PyExc Node := do
  let title ← d.index "title"
  let content ← d.index "content"
  .ok (.group "card"
    [.group "vstack" [.group "heading" [.text title.display], .text content.display]])

/-- `bottom_insights_section` (`about_page.py` lines 204-230): empty box
when `personal_insights` is falsy, else one card per insight via
`rx.foreach`. -/
def bottom_insights_section (data : Json) : Except PyExc Node := do
  let insights ← data.index "personal_insights"
  if insights.truthy then do
    let items ← insights.asList
    let cards ← mapPy personal_insight_card items
    .ok (.group "center"
      [.group "vstack"
        [.group "heading" [.text "A Bit More About Me"],
         .group "vstack" cards]])
  else
    .ok (.group "box" [])

/-! ### e-vCard page (`e_vcard.py`) -/

/-- The value of one attribute of a `ContactData` instance. -/
inductive AttrVal where
  | str (s : String)
  | links (l : List ContactLink)
  deriving DecidableEq, Repr

/-- Python truthiness of an attribute value. -/
def AttrVal.truthy : AttrVal → Bool
  | .str s => s ≠ ""
  | .links l => !l.isEmpty

/-- The string a non-string attribute renders as in an f-string. -/
def AttrVal.display : AttrVal → String
  | .str s => s
  | .links _ => "[...]"

/-- Python attribute access on a `ContactData` instance: the pydantic
model declares exactly `profile_pic`, `resume`, `qrcode`, `links` and
`name` (`contact_me_page.py` lines 19-25); any other attribute raises
`AttributeError`. -/
def ContactData.attr (cd : ContactData) (a : String) : Except PyExc AttrVal :=
  if a = "profile_pic" then .ok (.str cd.profile_pic)
  else if a = "resume" then .ok (.str cd.resume)
  else if a = "qrcode" then .ok (.str cd.qrcode)
  else if a = "links" then .ok (.links cd.links)
  else if a = "name" then .ok (.str cd.name)
  else .error .attributeError

/-- `get_vcf_download_path` (`e_vcard.py` lines 8-13): accesses
`CONTACT_DATA.download_vcf` (outside any handler) and would return
the lstrip-prefixed path for a truthy value. -/
def get_vcf_download_path (cd : ContactData) : Except PyExc String := do
  let v ← cd.attr "download_vcf"
  if v.truthy then
    match v with
    | .str s => .ok ("/" ++ lstripSlash s)
    | _ => .error .attributeError
  else
    .ok ""

/-- `evcard_contact_item` (`e_vcard.py` lines 16-56). -/
def evcard_contact_item (iconName : String) (value : String) (href : Option String) : Node :=
  let content := Node.group "hstack" [.icon iconName, .text value]
  match href with
  | some h => .link h content
  | none => content

/-- `evcard_page` (`e_vcard.py` lines 58-185): reads `full_name`,
`phone_number` and `vcf_image` off `CONTACT_DATA` before building the
card, and links the download button to `get_vcf_download_path()`. -/
def evcard_page (cd : ContactData) : Except PyExc Node := do
  let fullName ← cd.attr "full_name"
  let phone ← cd.attr "phone_number"
  let vcfImage ← cd.attr "vcf_image"
  let emailLink := cd.links.find? fun l => l.name = "Email"
  let websiteLink := cd.links.find? fun l => l.name = "Personal Website"
  let dl ← get_vcf_download_path cd
  .ok (.group "center"
    [.group "box"
      [.group "box" [.image ("/" ++ vcfImage.display)],
       .group "box"
         [.group "vstack"
           ([evcard_contact_item "user" fullName.display none,
             evcard_contact_item "phone" phone.display
               (some ("tel:" ++ phone.display))]
            ++ (match emailLink with
                | some l => [evcard_contact_item "mail" l.href
                               (some ("mailto:" ++ l.href))]
                | none => [])
            ++ (match websiteLink with
                | some l => [evcard_contact_item "globe" l.href (some l.href)]
                | none => [])
            ++ [.group "box" [.link dl (.text "Add to Contacts")]])]]])

/-! ### Auxiliary predicates and spec-side comparison definitions -/

/-- The string begins with `/`. -/
def startsWithSlash (s : String) : Bool :=
  match s.data with
  | c :: _ => c == '/'
  | _ => false

/-- The string begins with `//` (a double-prefixed path). -/
def doubleSlash (s : String) : Bool :=
  match s.data with
  | c1 :: c2 :: _ => c1 == '/' && c2 == '/'
  | _ => false

/-- Split a character list at the first `:`, when one is present. -/
def splitFirstColon : List Char → Option (List Char × List Char)
  | [] => none
  | c :: cs =>
    if c = ':' then some ([], cs)
    else
      match splitFirstColon cs with
      | some (a, b) => some (c :: a, b)
      | none => none

/-- Strip leading and trailing whitespace from a character list. -/
def trimChars (l : List Char) : List Char :=
  ((l.dropWhile Char.isWhitespace).reverse.dropWhile Char.isWhitespace).reverse

/-- Follows the words of the spec, for comparison with the code (spec §4.3):
"the free-text `details` field is split once on the first `:` character;
if a colon is present, the portion before it (trimmed, with `:`
re-appended) becomes a label and the portion after becomes the displayed
value; if absent, the whole string is used as the value and a fixed
fallback label is used" — with the displayed value trimmed as in the
own example of the spec (input `"GPA: 3.73/4.0"` yields value `"3.73/4.0"`). -/
def specGpaSplit (fallbackLabel : String) (details : String) : String × String :=
  match splitFirstColon details.data with
  | some (before, after) =>
    (String.mk (trimChars before) ++ ":", String.mk (trimChars after))
  | none => (fallbackLabel, details)

/-- Whether `load_contact_data` succeeds on the given read outcome (the
file parses and the object passes `ContactData` validation). -/
def contact_load_ok (fs : ReadResult) : Bool :=
  match fs with
  | .ok j =>
    match parseContactData j with
    | .ok _ => true
    | .error _ => false
  | _ => false

/-- The raw `details` value the GPA badge of an education record
receives (the `details` key with default `""`, rendered as text). -/
def educationDetailsValue (edu : Json) : String :=
  match edu with
  | .obj fields => ((fields.lookup "details").getD (.str "")).display
  | _ => ""

/-! ### Concrete records used by witnesses and counterexamples -/

/-- A well-formed project record. -/
def exProjectJson : Json :=
  .obj [("title", .str "Demo"), ("short_description", .str "A demo"),
        ("full_description", .arr [.str "built it"]), ("teamsize", .num 2),
        ("href", .str "http://x"), ("languages_used", .arr [.str "Python"])]

/-- The `ProjectData` that `exProjectJson` validates to (after
`tech_stack` is overwritten with `languages_used`). -/
def exProjectVal : ProjectData :=
  { title := "Demo", short_description := "A demo",
    full_description := ["built it"], teamsize := 2, href := "http://x",
    languages_used := ["Python"], tech_stack := ["Python"] }

/-- A solo variant of `exProjectVal` with an image filename. -/
def exProjectSolo : ProjectData :=
  { exProjectVal with teamsize := 1, tech_stack := [], image := some "pic.png" }

/-- A project record that fails validation (every required field is
missing). -/
def exBadProjectJson : Json :=
  .obj [("title", .str "No fields")]

/-- A well-formed work company record. -/
def exCompanyJson : Json :=
  .obj [("company", .str "Acme"), ("roles", .arr [])]

/-- The component `company_section` maps `exCompanyJson` to. -/
def exCompanyNode : Node :=
  .group "card"
    [.group "vstack"
      [.group "hstack"
        [.group "box" [],
         .link "#" (.group "heading" [.text "Acme"])]]]

/-- A work company record missing the required `company` key. -/
def exBadCompanyJson : Json :=
  .obj [("roles", .arr [])]

/-- A well-formed education record whose `details` field carries the
GPA example of the spec. -/
def exEducationJson : Json :=
  .obj [("institution", .str "State University"), ("degree", .str "BS"),
        ("location", .str "Town"), ("date_range", .str "2015-2019"),
        ("details", .str "GPA: 3.73/4.0")]

/-- The component `education_card` maps `exEducationJson` to. -/
def exEducationNode : Node :=
  .group "vstack"
    [.group "hstack"
      [.group "box" [],
       .link "#" (.text "State University")],
     .group "fragment"
       [.group "vstack"
         [.text "BS",
          .group "hstack"
            [.text "Town", .text "|", .text "GPA: ",
             .badge (.text "GPA: 3.73/4.0"),
             .text "|", .text "2015-2019"]],
        .group "vstack"
          [.group "box" [.text "BS"],
           .text "Town",
           .group "hstack" [.text "GPA:", .badge (.text "GPA: 3.73/4.0")],
           .text "2015-2019"]],
     .group "box" [],
     .group "vstack" []]

/-- A well-formed about-page insight record. -/
def exInsightJson : Json :=
  .obj [("title", .str "T"), ("content", .str "C")]

/-- A contact record with one link. -/
def exContactVal : ContactData :=
  { profile_pic := "me.gif", resume := "cv.pdf", qrcode := "qr.png",
    links := [{ name := "Email", icon := "mail", href := "e@x", color := "blue" }] }

/-! ### Helper lemmas -/

theorem mapPy_length {α β : Type} (f : α → Except PyExc β) :
    ∀ (l : List α) (r : List β), mapPy f l = .ok r → r.length = l.length := by
  intro l
  induction l with
  | nil =>
    intro r h
    simp only [mapPy, Except.ok.injEq] at h
    simp [← h]
  | cons x xs ih =>
    intro r h
    simp only [mapPy] at h
    cases hfx : f x with
    | error e => rw [hfx] at h; exact absurd h (by simp)
    | ok y =>
      rw [hfx] at h
      cases hxs : mapPy f xs with
      | error e => rw [hxs] at h; exact absurd h (by simp)
      | ok ys =>
        rw [hxs] at h
        simp only [Except.ok.injEq] at h
        subst h
        simp [ih ys hxs]

theorem mapPy_get {α β : Type} (f : α → Except PyExc β) :
    ∀ (l : List α) (r : List β), mapPy f l = .ok r →
      ∀ (i : Nat) (hi : i < l.length) (hr : i < r.length),
        f (l.get ⟨i, hi⟩) = .ok (r.get ⟨i, hr⟩) := by
  intro l
  induction l with
  | nil => intro r h i hi hr; exact absurd hi (by simp)
  | cons x xs ih =>
    intro r h i hi hr
    simp only [mapPy] at h
    cases hfx : f x with
    | error e => rw [hfx] at h; exact absurd h (by simp)
    | ok y =>
      rw [hfx] at h
      cases hxs : mapPy f xs with
      | error e => rw [hxs] at h; exact absurd h (by simp)
      | ok ys =>
        rw [hxs] at h
        simp only [Except.ok.injEq] at h
        subst h
        cases i with
        | zero => simpa using hfx
        | succ j =>
          exact ih ys hxs j (Nat.lt_of_succ_lt_succ hi) (Nat.lt_of_succ_lt_succ hr)

theorem mapPy_append_error {α β : Type} (f : α → Except PyExc β) :
    ∀ (l1 : List α) (r1 : List β) (b : α) (l2 : List α) (e : PyExc),
      mapPy f l1 = .ok r1 → f b = .error e →
      mapPy f (l1 ++ b :: l2) = .error e := by
  intro l1
  induction l1 with
  | nil =>
    intro r1 b l2 e _ hb
    simp only [List.nil_append, mapPy, hb]
  | cons x xs ih =>
    intro r1 b l2 e h hb
    simp only [mapPy] at h
    cases hfx : f x with
    | error e2 => rw [hfx] at h; exact absurd h (by simp)
    | ok y =>
      rw [hfx] at h
      cases hxs : mapPy f xs with
      | error e2 => rw [hxs] at h; exact absurd h (by simp)
      | ok ys =>
        have hrest := ih ys b l2 e hxs hb
        simp only [List.cons_append, mapPy, hfx]
        rw [show xs.append (b :: l2) = xs ++ b :: l2 from rfl, hrest]

theorem mapOpt_filterMap {α β : Type} (f : α → Option β) :
    ∀ (l : List α) (r : List β), mapOpt f l = some r → l.filterMap f = r := by
  intro l
  induction l with
  | nil =>
    intro r h
    simp only [mapOpt, Option.some.injEq] at h
    simp [← h]
  | cons x xs ih =>
    intro r h
    simp only [mapOpt] at h
    cases hfx : f x with
    | none => rw [hfx] at h; exact absurd h (by simp)
    | some y =>
      rw [hfx] at h
      cases hxs : mapOpt f xs with
      | none => rw [hxs] at h; exact absurd h (by simp)
      | some ys =>
        rw [hxs] at h
        simp only [Option.some.injEq] at h
        subst h
        simp [List.filterMap_cons, hfx, ih ys hxs]

theorem mapOpt_length {α β : Type} (f : α → Option β) :
    ∀ (l : List α) (r : List β), mapOpt f l = some r → r.length = l.length := by
  intro l
  induction l with
  | nil =>
    intro r h
    simp only [mapOpt, Option.some.injEq] at h
    simp [← h]
  | cons x xs ih =>
    intro r h
    simp only [mapOpt] at h
    cases hfx : f x with
    | none => rw [hfx] at h; exact absurd h (by simp)
    | some y =>
      rw [hfx] at h
      cases hxs : mapOpt f xs with
      | none => rw [hxs] at h; exact absurd h (by simp)
      | some ys =>
        rw [hxs] at h
        simp only [Option.some.injEq] at h
        subst h
        simp [ih ys hxs]

theorem mapOpt_get {α β : Type} (f : α → Option β) :
    ∀ (l : List α) (r : List β), mapOpt f l = some r →
      ∀ (i : Nat) (hi : i < l.length) (hr : i < r.length),
        f (l.get ⟨i, hi⟩) = some (r.get ⟨i, hr⟩) := by
  intro l
  induction l with
  | nil => intro r h i hi hr; exact absurd hi (by simp)
  | cons x xs ih =>
    intro r h i hi hr
    simp only [mapOpt] at h
    cases hfx : f x with
    | none => rw [hfx] at h; exact absurd h (by simp)
    | some y =>
      rw [hfx] at h
      cases hxs : mapOpt f xs with
      | none => rw [hxs] at h; exact absurd h (by simp)
      | some ys =>
        rw [hxs] at h
        simp only [Option.some.injEq] at h
        subst h
        cases i with
        | zero => simpa using hfx
        | succ j =>
          exact ih ys hxs j (Nat.lt_of_succ_lt_succ hi) (Nat.lt_of_succ_lt_succ hr)

theorem dropWhileSlash_head_ne {l : List Char} :
    ((l.dropWhile (· == '/')).head? = some '/') → False := by
  induction l with
  | nil => intro h; simp [List.dropWhile] at h
  | cons c t ih =>
    intro h
    by_cases hc : c = '/'
    · subst hc
      rw [List.dropWhile_cons_of_pos (by simp)] at h
      exact ih h
    · rw [List.dropWhile_cons_of_neg (by simp [hc])] at h
      simp only [List.head?_cons, Option.some.injEq] at h
      exact hc h

theorem data_append_str (s t : String) : (s ++ t).data = s.data ++ t.data := rfl

theorem string_eq_of_data {s t : String} (h : s.data = t.data) : s = t := by
  cases s with
  | mk a =>
    cases t with
    | mk b => exact congrArg String.mk h

theorem doubleSlash_slash_lstrip (s : String) :
    doubleSlash ("/" ++ lstripSlash s) = false := by
  have hdata : ("/" ++ lstripSlash s).data = '/' :: (s.data.dropWhile (· == '/')) := rfl
  unfold doubleSlash
  rw [hdata]
  cases hd : s.data.dropWhile (· == '/') with
  | nil => rfl
  | cons c rest =>
    by_cases hc : c = '/'
    · subst hc
      exact absurd (show (s.data.dropWhile (· == '/')).head? = some '/' by
        rw [hd]; rfl) dropWhileSlash_head_ne
    · simp [hc]

theorem lstripSlash_no_slash {s : String} (h : startsWithSlash s = false) :
    lstripSlash s = s := by
  apply string_eq_of_data
  show s.data.dropWhile (· == '/') = s.data
  cases hl : s.data with
  | nil => rfl
  | cons c t =>
    have hc : c ≠ '/' := by
      intro hceq
      unfold startsWithSlash at h
      rw [hl] at h
      simp [hceq] at h
    rw [List.dropWhile_cons_of_neg (by simp [hc])]

theorem except_bind_ok {α β : Type} {e : Except PyExc α} {f : α → Except PyExc β} {b : β} :
    (Bind.bind e f = Except.ok b) ↔ ∃ a, e = .ok a ∧ f a = .ok b := by
  cases e <;> simp [Bind.bind, Except.bind]

/-! ### Claims -/

/-- C1, counterexample: the work loader does not handle all failures
locally — on an unreadable file (an `OSError` that is not
`FileNotFoundError`), `load_work_data` propagates the exception instead
of returning the empty default. -/
theorem claim_C1_counterexample :
    load_work_data .unreadable = .error .osError
      ∧ ReadResult.isFailure .unreadable = true :=
  ⟨rfl, rfl⟩

/-- C1, amended: on any load failure the education, projects, contact and
about loaders print a diagnostic and return their documented empty
defaults without raising; the work loader does so for a missing file and
for malformed JSON, but an unreadable file raises an uncaught `OSError`
(it catches only `FileNotFoundError` and `json.JSONDecodeError`). -/
theorem claim_C1_amended : ∀ (fs fb : ReadResult),
    fs.isFailure = true → fb.isFailure = true →
    load_education_data fs = .arr []
      ∧ load_projects_data fs = .ok []
      ∧ load_contact_data fs = contactFallback
      ∧ load_about_me_data fs fb = aboutDefault
      ∧ (fs ≠ .unreadable → load_work_data fs = .ok (.arr [])) := by
  intro fs fb h1 h2
  cases fs with
  | ok j => simp [ReadResult.isFailure] at h1
  | missing =>
    cases fb with
    | ok j => simp [ReadResult.isFailure] at h2
    | missing => exact ⟨rfl, rfl, rfl, rfl, fun _ => rfl⟩
    | unreadable => exact ⟨rfl, rfl, rfl, rfl, fun _ => rfl⟩
    | malformed => exact ⟨rfl, rfl, rfl, rfl, fun _ => rfl⟩
  | unreadable => exact ⟨rfl, rfl, rfl, rfl, fun hne => absurd rfl hne⟩
  | malformed => exact ⟨rfl, rfl, rfl, rfl, fun _ => rfl⟩

/-- C1, witness for the amended claim at a missing file. -/
theorem claim_C1_witness :
    ReadResult.isFailure .missing = true
      ∧ load_contact_data .missing = contactFallback
      ∧ load_projects_data .missing = .ok [] := by
  have h := claim_C1_amended .missing .missing rfl rfl
  exact ⟨rfl, h.2.2.1, h.2.1⟩

/-- C4: for every content type, a file with malformed (unparsable) JSON
loads to exactly the same default value as a missing file — `[]` for
work, education and projects, the fallback contact record, and the empty
about object. -/
theorem claim_C4 :
    load_work_data .malformed = load_work_data .missing
      ∧ load_education_data .malformed = load_education_data .missing
      ∧ load_projects_data .malformed = load_projects_data .missing
      ∧ load_contact_data .malformed = load_contact_data .missing
      ∧ load_about_me_data .malformed .missing = load_about_me_data .missing .missing
      ∧ load_about_me_data .missing .malformed = load_about_me_data .missing .missing
      ∧ load_work_data .malformed = .ok (.arr [])
      ∧ load_education_data .malformed = .arr []
      ∧ load_projects_data .malformed = .ok []
      ∧ load_contact_data .malformed = contactFallback
      ∧ load_about_me_data .malformed .missing = aboutDefault :=
  ⟨rfl, rfl, rfl, rfl, rfl, rfl, rfl, rfl, rfl, rfl, rfl⟩

/-- C9: `ContactData` declares no `download_vcf`, `full_name`,
`phone_number` or `vcf_image` field, so for every record
`load_contact_data` can produce, `get_vcf_download_path` — and hence
`evcard_page` — raises `AttributeError`. -/
theorem claim_C9 : ∀ fs : ReadResult,
    get_vcf_download_path (load_contact_data fs) = .error .attributeError
      ∧ evcard_page (load_contact_data fs) = .error .attributeError := by
  have hattr : ∀ (cd : ContactData), cd.attr "download_vcf" = .error .attributeError := by
    intro cd
    unfold ContactData.attr
    rw [if_neg (by decide), if_neg (by decide), if_neg (by decide),
        if_neg (by decide), if_neg (by decide)]
  have hfull : ∀ (cd : ContactData), cd.attr "full_name" = .error .attributeError := by
    intro cd
    unfold ContactData.attr
    rw [if_neg (by decide), if_neg (by decide), if_neg (by decide),
        if_neg (by decide), if_neg (by decide)]
  intro fs
  constructor
  · show (load_contact_data fs).attr "download_vcf" >>= _ = .error .attributeError
    rw [hattr]
    rfl
  · show (load_contact_data fs).attr "full_name" >>= _ = .error .attributeError
    rw [hfull]
    rfl

/-- C10: whenever the contact load fails (missing file, parse error, or
schema mismatch), `load_contact_data` returns the fallback record: blank
`profile_pic`, `resume` and `qrcode`, empty `links`, but the non-blank
default name `"Prabhat Racherla"`. -/
theorem claim_C10 : ∀ fs : ReadResult, contact_load_ok fs = false →
    load_contact_data fs = contactFallback
      ∧ (load_contact_data fs).profile_pic = ""
      ∧ (load_contact_data fs).resume = ""
      ∧ (load_contact_data fs).qrcode = ""
      ∧ (load_contact_data fs).links = []
      ∧ (load_contact_data fs).name = "Prabhat Racherla"
      ∧ (load_contact_data fs).name ≠ "" := by
  intro fs h
  have hload : load_contact_data fs = contactFallback := by
    cases fs with
    | ok j =>
      rw [show contact_load_ok (.ok j)
            = (match parseContactData j with
               | .ok _ => true
               | .error _ => false) from rfl] at h
      rw [show load_contact_data (.ok j)
            = (match parseContactData j with
               | .ok cd => cd
               | .error _ => contactFallback) from rfl]
      cases hp : parseContactData j with
      | ok cd => rw [hp] at h; exact absurd h (by simp)
      | error e => rfl
    | missing => rfl
    | unreadable => rfl
    | malformed => rfl
  rw [hload]
  exact ⟨rfl, rfl, rfl, rfl, rfl, rfl, by decide⟩

/-- C10, witness at a missing file. -/
theorem claim_C10_witness :
    contact_load_ok .missing = false
      ∧ load_contact_data .missing = contactFallback
      ∧ (load_contact_data .missing).name = "Prabhat Racherla" := by
  have h := claim_C10 .missing rfl
  exact ⟨rfl, h.1, h.2.2.2.2.2.1⟩

theorem badgeTextsList_texts (l : List String) :
    Node.badgeTextsList (l.map fun s => Node.text s) = [] := by
  induction l with
  | nil => rfl
  | cons x xs ih => simp [Node.badgeTextsList, Node.badgeTexts, ih]

theorem badgeTexts_dialog_image (p : ProjectData) :
    (project_dialog_image p).badgeTexts = [] := by
  unfold project_dialog_image
  cases p.image with
  | none => rfl
  | some s =>
    by_cases h : s = "" <;> simp [h, Node.badgeTexts, Node.badgeTextsList]

theorem badgeTexts_research_section (p : ProjectData) :
    (research_paper_link_section p).badgeTexts = [] := by
  unfold research_paper_link_section
  cases p.extra_href with
  | none => rfl
  | some h =>
    by_cases hh : h = "" <;>
      simp [hh, Node.badgeTexts, Node.badgeTextsList, Node.texts]

/-- C7: the team-size badge of a project card renders `"Individual"` for
`teamsize = 1` and `"Team of N"` for any other (positive) team size; with
no tech-stack badges present, the only badge of the card is that label. -/
theorem claim_C7 :
    (∀ p : ProjectData, p.teamsize = 1 →
       teamsize_badge p = .badge (.text "Individual"))
      ∧ (∀ p : ProjectData, 1 ≤ p.teamsize → p.teamsize ≠ 1 →
           teamsize_badge p = .badge (.text ("Team of " ++ toString p.teamsize)))
      ∧ (∀ p : ProjectData, p.teamsize = 1 → p.tech_stack = [] →
           (project_card p).badgeTexts = ["Individual"]) := by
  refine ⟨?_, ?_, ?_⟩
  · intro p h
    unfold teamsize_badge
    rw [if_pos h]
  · intro p _ h
    unfold teamsize_badge
    rw [if_neg h]
  · intro p h1 h2
    unfold project_card project_dialog
    simp [Node.badgeTexts, Node.badgeTextsList, Node.texts, teamsize_badge,
          tech_stack_content, h1, h2, badgeTextsList_texts,
          badgeTexts_dialog_image, badgeTexts_research_section]

/-- C7, witness at team sizes 1 and 2. -/
theorem claim_C7_witness :
    exProjectSolo.teamsize = 1
      ∧ teamsize_badge exProjectSolo = .badge (.text "Individual")
      ∧ (1 ≤ exProjectVal.teamsize ∧ exProjectVal.teamsize ≠ 1)
      ∧ teamsize_badge exProjectVal = .badge (.text "Team of 2")
      ∧ (project_card exProjectSolo).badgeTexts = ["Individual"] := by
  refine ⟨rfl, claim_C7.1 exProjectSolo rfl, ⟨by decide, by decide⟩, ?_, ?_⟩
  · exact claim_C7.2.1 exProjectVal (by decide) (by decide)
  · exact claim_C7.2.2 exProjectSolo rfl rfl

/-- C5, counterexample: the `image` field of a project record is not
resolved at all — the dialog uses the bare filename as the image `src`,
so a non-empty `image` does not get the `/` prefix the claim requires. -/
theorem claim_C5_counterexample :
    exProjectSolo.image = some "pic.png"
      ∧ project_dialog_image exProjectSolo = .group "center" [.image "pic.png"]
      ∧ (project_card exProjectSolo).imageSrcs = ["pic.png"]
      ∧ ("pic.png" : String) ≠ "/" ++ "pic.png" :=
  ⟨rfl, rfl, rfl, by decide⟩

/-- C5, amended: `profile_pic`, `qrcode`, the education `logo` and
`campus_pic`, and the navbar `resume` resolve to `/` + filename when
non-empty and to `""` when empty; the work `logo` resolves to `/` +
filename when truthy but to Python `None` (not `""`) otherwise; the
projects `image` is used verbatim with no `/` prefix at all. -/
theorem claim_C5_amended :
    (∀ cd : ContactData,
        get_profile_image_path cd
          = if cd.profile_pic = "" then "" else "/" ++ cd.profile_pic)
      ∧ (∀ cd : ContactData,
           get_qrcode_image_path cd
             = if cd.qrcode = "" then "" else "/" ++ cd.qrcode)
      ∧ (∀ s : String,
           education_full_logo_path (.str s)
             = .ok (if s = "" then "" else "/" ++ s))
      ∧ (∀ s : String,
           education_campus_path (.str s)
             = .ok (if s = "" then "" else "/" ++ s))
      ∧ (work_full_logo_path (.str "") = none
          ∧ ∀ s : String, s ≠ "" → work_full_logo_path (.str s) = some ("/" ++ s))
      ∧ (∀ s : String, startsWithSlash s = false →
           get_resume_path (.ok (.obj [("resume", .str s)]))
             = if s = "" then "" else "/" ++ s)
      ∧ (∀ (p : ProjectData) (s : String), p.image = some s → s ≠ "" →
           project_dialog_image p = .group "center" [.image s]) := by
  refine ⟨?_, ?_, ?_, ?_, ⟨rfl, ?_⟩, ?_, ?_⟩
  · intro cd
    unfold get_profile_image_path
    by_cases h : cd.profile_pic = "" <;> simp [h]
  · intro cd
    unfold get_qrcode_image_path
    by_cases h : cd.qrcode = "" <;> simp [h]
  · intro s
    unfold education_full_logo_path
    by_cases h : s = "" <;> simp [h]
  · intro s
    unfold education_campus_path
    by_cases h : s = "" <;> simp [h]
  · intro s h
    unfold work_full_logo_path
    simp [Json.truthy, Json.display, h]
  · intro s hs
    have hred : get_resume_path (.ok (.obj [("resume", .str s)]))
        = if s ≠ "" then "/" ++ lstripSlash s else "" := rfl
    rw [hred, lstripSlash_no_slash hs]
    by_cases h : s = "" <;> simp [h]
  · intro p s himg hs
    unfold project_dialog_image
    rw [himg]
    simp [hs]

/-- C5, witness for the amended claim at concrete filenames. -/
theorem claim_C5_witness :
    get_profile_image_path exContactVal = "/me.gif"
      ∧ education_full_logo_path (.str "") = .ok ""
      ∧ work_full_logo_path (.str "logo.png") = some "/logo.png"
      ∧ get_resume_path (.ok (.obj [("resume", .str "cv.pdf")])) = "/cv.pdf"
      ∧ project_dialog_image exProjectSolo = .group "center" [.image "pic.png"] := by
  have h := claim_C5_amended
  refine ⟨?_, ?_, ?_, ?_, ?_⟩
  · exact (h.1 exContactVal).trans (by decide)
  · exact (h.2.2.1 "").trans rfl
  · exact h.2.2.2.2.1.2 "logo.png" (by decide)
  · exact (h.2.2.2.2.2.1 "cv.pdf" rfl).trans (by decide)
  · exact h.2.2.2.2.2.2 exProjectSolo "pic.png" rfl (by decide)

/-- C6, counterexample: the profile-picture resolver does double-prefix a
pre-prefixed filename, contradicting both the normative half of the claim
("must not double-prefix") at this site and — together with the amended
resume half of the amended theorem — its descriptive rider ("holds at no resolution
site"). -/
theorem claim_C6_counterexample :
    get_profile_image_path { exContactVal with profile_pic := "/already-prefixed.png" }
        = "//already-prefixed.png"
      ∧ doubleSlash "//already-prefixed.png" = true :=
  ⟨rfl, rfl⟩

/-- C6, amended: the resolvers that strip leading slashes (the navbar
résumé path) never produce a `//` path, while the plain-prefix resolvers
(`profile_pic`, `qrcode`) turn an already-prefixed input `/x` into
`//x`. -/
theorem claim_C6_amended :
    (∀ fs : ReadResult, doubleSlash (get_resume_path fs) = false)
      ∧ (∀ (cd : ContactData) (s : String), cd.profile_pic = "/" ++ s →
           get_profile_image_path cd = "//" ++ s)
      ∧ (∀ (cd : ContactData) (s : String), cd.qrcode = "/" ++ s →
           get_qrcode_image_path cd = "//" ++ s) := by
  have hne : ∀ s : String, ("/" ++ s) ≠ "" := by
    intro s he
    have hd := congrArg String.data he
    rw [data_append_str] at hd
    simp at hd
  have hcat : ∀ s : String, "/" ++ ("/" ++ s) = "//" ++ s := fun s => rfl
  refine ⟨?_, ?_, ?_⟩
  · intro fs
    cases fs with
    | missing => rfl
    | unreadable => rfl
    | malformed => rfl
    | ok j =>
      cases j with
      | obj fields =>
        rw [show get_resume_path (.ok (.obj fields))
              = (match (fields.lookup "resume").getD (.str "") with
                 | .str s => if s ≠ "" then "/" ++ lstripSlash s else ""
                 | _ => "") from rfl]
        cases hv : (fields.lookup "resume").getD (.str "") with
        | str s =>
          by_cases h : s = ""
          · subst h; rfl
          · simp only [h, ne_eq, not_false_eq_true, if_true]
            exact doubleSlash_slash_lstrip s
        | null => rfl
        | bool b => rfl
        | num n => rfl
        | arr xs => rfl
        | obj fs2 => rfl
      | null => rfl
      | bool b => rfl
      | num n => rfl
      | str s => rfl
      | arr xs => rfl
  · intro cd s h
    unfold get_profile_image_path
    rw [h, if_pos (hne s), hcat s]
  · intro cd s h
    unfold get_qrcode_image_path
    rw [h, if_pos (hne s), hcat s]

/-- C6, witness for the amended claim. -/
theorem claim_C6_witness :
    ({ exContactVal with profile_pic := "/x.png" } : ContactData).profile_pic = "/" ++ "x.png"
      ∧ get_profile_image_path { exContactVal with profile_pic := "/x.png" } = "//" ++ "x.png"
      ∧ doubleSlash (get_resume_path (.ok (.obj [("resume", .str "/cv.pdf")]))) = false := by
  refine ⟨rfl, ?_, ?_⟩
  · exact claim_C6_amended.2.1 { exContactVal with profile_pic := "/x.png" } "x.png" rfl
  · exact claim_C6_amended.1 (.ok (.obj [("resume", .str "/cv.pdf")]))

theorem validProject_some : ∀ (d : Json) (p : ProjectData),
    validProject d = some p → processProject d = .ok (some p) := by
  intro d p h
  unfold validProject at h
  unfold processProject
  cases hpd : parseProjectData d with
  | ok q =>
    rw [hpd] at h
    simp only [Option.some.injEq] at h
    simp [h]
  | error e => rw [hpd] at h; exact absurd h (by simp)

theorem processProjects_all_ok : ∀ (items : List Json) (ps : List ProjectData),
    mapOpt validProject items = some ps → processProjects items = .ok ps := by
  intro items
  induction items with
  | nil =>
    intro ps h
    simp only [mapOpt, Option.some.injEq] at h
    rw [← h]
    rfl
  | cons d ds ih =>
    intro ps h
    simp only [mapOpt] at h
    cases hv : validProject d with
    | none => rw [hv] at h; exact absurd h (by simp)
    | some p =>
      rw [hv] at h
      cases hds : mapOpt validProject ds with
      | none => rw [hds] at h; exact absurd h (by simp)
      | some ps2 =>
        rw [hds] at h
        simp only [Option.some.injEq] at h
        subst h
        simp [processProjects, validProject_some d p hv, ih ps2 hds]

theorem processProjects_ok_append : ∀ (pre : List Json) (ps1 : List ProjectData)
      (rest : List Json) (r : List ProjectData),
    mapOpt validProject pre = some ps1 → processProjects rest = .ok r →
    processProjects (pre ++ rest) = .ok (ps1 ++ r) := by
  intro pre
  induction pre with
  | nil =>
    intro ps1 rest r h1 h2
    simp only [mapOpt, Option.some.injEq] at h1
    rw [← h1]
    simpa using h2
  | cons d ds ih =>
    intro ps1 rest r h1 h2
    simp only [mapOpt] at h1
    cases hv : validProject d with
    | none => rw [hv] at h1; exact absurd h1 (by simp)
    | some p =>
      rw [hv] at h1
      cases hds : mapOpt validProject ds with
      | none => rw [hds] at h1; exact absurd h1 (by simp)
      | some ps2 =>
        rw [hds] at h1
        simp only [Option.some.injEq] at h1
        subst h1
        simp [processProjects, validProject_some d p hv, ih ps2 rest r hds h2]

theorem processProjects_error_append : ∀ (pre : List Json) (ps1 : List ProjectData)
      (rest : List Json) (e : PyExc),
    mapOpt validProject pre = some ps1 → processProjects rest = .error e →
    processProjects (pre ++ rest) = .error e := by
  intro pre
  induction pre with
  | nil =>
    intro ps1 rest e _ h2
    simpa using h2
  | cons d ds ih =>
    intro ps1 rest e h1 h2
    simp only [mapOpt] at h1
    cases hv : validProject d with
    | none => rw [hv] at h1; exact absurd h1 (by simp)
    | some p =>
      rw [hv] at h1
      cases hds : mapOpt validProject ds with
      | none => rw [hds] at h1; exact absurd h1 (by simp)
      | some ps2 =>
        simp [processProjects, validProject_some d p hv, ih ps2 rest e hds h2]

/-- C2: for every content type, loading a well-formed file whose records
all validate and mapping yields exactly one component per record, in
source order (the assembled children are pointwise the mapper applied to
the corresponding record — no sorting, deduplication or pagination). -/
theorem claim_C2 :
    (∀ (items : List Json) (ps : List ProjectData),
        mapOpt validProject items = some ps →
        load_projects_data (.ok (.arr items)) = .ok ps
          ∧ ps.length = items.length
          ∧ ∀ (i : Nat) (hi : i < items.length) (hp : i < ps.length),
              validProject (items.get ⟨i, hi⟩) = some (ps.get ⟨i, hp⟩))
      ∧ (∀ (items : List Json) (sections : List Node),
           mapPy company_section items = .ok sections →
           work_comp (.arr items) = .ok (.group "center" [.group "vstack" sections])
             ∧ sections.length = items.length
             ∧ ∀ (i : Nat) (hi : i < items.length) (hs : i < sections.length),
                 company_section (items.get ⟨i, hi⟩) = .ok (sections.get ⟨i, hs⟩))
      ∧ (∀ (items : List Json) (cards : List Node),
           mapPy education_card items = .ok cards →
           education_comp (.arr items)
               = .ok (.group "center"
                   [.group "grid" (cards.map fun c => .group "card" [c])])
             ∧ cards.length = items.length
             ∧ ∀ (i : Nat) (hi : i < items.length) (hc : i < cards.length),
                 education_card (items.get ⟨i, hi⟩) = .ok (cards.get ⟨i, hc⟩))
      ∧ (∀ cd : ContactData,
           (STATIC_CONTACT_LINKS cd).length = cd.links.length
             ∧ ∀ (i : Nat) (hi : i < cd.links.length) (hl : i < (STATIC_CONTACT_LINKS cd).length),
                 (STATIC_CONTACT_LINKS cd).get ⟨i, hl⟩ = contact_link_item (cd.links.get ⟨i, hi⟩))
      ∧ (∀ (items : List Json) (cards : List Node),
           mapPy personal_insight_card items = .ok cards →
           cards.length = items.length
             ∧ ∀ (i : Nat) (hi : i < items.length) (hc : i < cards.length),
                 personal_insight_card (items.get ⟨i, hi⟩) = .ok (cards.get ⟨i, hc⟩)) := by
  refine ⟨?_, ?_, ?_, ?_, ?_⟩
  · intro items ps h
    refine ⟨?_, mapOpt_length validProject items ps h,
            fun i hi hp => mapOpt_get validProject items ps h i hi hp⟩
    rw [show load_projects_data (.ok (.arr items))
          = processProjects items from rfl,
        processProjects_all_ok items ps h]
  · intro items sections h
    refine ⟨?_, mapPy_length company_section items sections h,
            fun i hi hs => mapPy_get company_section items sections h i hi hs⟩
    rw [show work_comp (.arr items)
          = Except.bind (mapPy company_section items)
              (fun sections => Except.ok (.group "center" [.group "vstack" sections]))
          from rfl, h]
    rfl
  · intro items cards h
    refine ⟨?_, mapPy_length education_card items cards h,
            fun i hi hc => mapPy_get education_card items cards h i hi hc⟩
    rw [show education_comp (.arr items)
          = Except.bind (mapPy education_card items)
              (fun cards => Except.ok (.group "center"
                 [.group "grid" (cards.map fun c => .group "card" [c])]))
          from rfl, h]
    rfl
  · intro cd
    constructor
    · simp [STATIC_CONTACT_LINKS]
    · intro i hi hl
      simp [STATIC_CONTACT_LINKS]
  · intro items cards h
    exact ⟨mapPy_length personal_insight_card items cards h,
           fun i hi hc => mapPy_get personal_insight_card items cards h i hi hc⟩

/-- C2, witness: one-record inputs of each content type. -/
theorem claim_C2_witness :
    mapOpt validProject [exProjectJson] = some [exProjectVal]
      ∧ load_projects_data (.ok (.arr [exProjectJson])) = .ok [exProjectVal]
      ∧ mapPy company_section [exCompanyJson] = .ok [exCompanyNode]
      ∧ work_comp (.arr [exCompanyJson])
          = .ok (.group "center" [.group "vstack" [exCompanyNode]])
      ∧ mapPy education_card [exEducationJson] = .ok [exEducationNode]
      ∧ (STATIC_CONTACT_LINKS exContactVal).length = exContactVal.links.length
      ∧ mapPy personal_insight_card [exInsightJson]
          = .ok [.group "card" [.group "vstack" [.group "heading" [.text "T"], .text "C"]]] := by
  refine ⟨rfl, ?_, rfl, ?_, rfl, ?_, rfl⟩
  · exact (claim_C2.1 [exProjectJson] [exProjectVal] rfl).1
  · exact (claim_C2.2.1 [exCompanyJson] [exCompanyNode] rfl).1
  · exact (claim_C2.2.2.2.1 exContactVal).1

/-- C8, counterexample: work records get no load-time validation — a
record missing the required `company` key makes the whole work page
raise `KeyError` at render time, so the valid sibling record is not
rendered either; and even the projects loader aborts (rather than
dropping one record) when the failing record is not a dict, because the
diagnostic of its handler raises `AttributeError`. -/
theorem claim_C8_counterexample :
    work_comp (.arr [exBadCompanyJson, exCompanyJson]) = .error .keyError
      ∧ company_section exCompanyJson = .ok exCompanyNode
      ∧ company_section exBadCompanyJson = .error .keyError
      ∧ load_projects_data (.ok (.arr [.num 5, exProjectJson])) = .error .attributeError :=
  ⟨rfl, rfl, rfl, rfl⟩

/-- C8, amended: record-level partial failure exists only in the
projects loader and only for dict records: a dict record that fails
`ProjectData` validation is dropped with a diagnostic and its siblings
still render, but a non-dict record makes the diagnostic itself raise
`AttributeError`, aborting the whole projects load; for the work and
education types a record that fails at its mapper aborts the whole page
with the raised exception. -/
theorem claim_C8_amended :
    (∀ (pre : List Json) (bad : Json) (post : List Json)
         (ps1 ps2 : List ProjectData),
        mapOpt validProject pre = some ps1 →
        processProject bad = .ok none →
        mapOpt validProject post = some ps2 →
        load_projects_data (.ok (.arr (pre ++ bad :: post))) = .ok (ps1 ++ ps2))
      ∧ (∀ (pre : List Json) (bad : Json) (post : List Json)
             (ps1 : List ProjectData) (e : PyExc),
           mapOpt validProject pre = some ps1 →
           processProject bad = .error e →
           load_projects_data (.ok (.arr (pre ++ bad :: post))) = .error e)
      ∧ (∀ (pre : List Json) (bad : Json) (post : List Json)
             (ns : List Node) (e : PyExc),
           mapPy company_section pre = .ok ns →
           company_section bad = .error e →
           work_comp (.arr (pre ++ bad :: post)) = .error e)
      ∧ (∀ (pre : List Json) (bad : Json) (post : List Json)
             (ns : List Node) (e : PyExc),
           mapPy education_card pre = .ok ns →
           education_card bad = .error e →
           education_comp (.arr (pre ++ bad :: post)) = .error e) := by
  refine ⟨?_, ?_, ?_, ?_⟩
  · intro pre bad post ps1 ps2 h1 hbad h2
    rw [show load_projects_data (.ok (.arr (pre ++ bad :: post)))
          = processProjects (pre ++ bad :: post) from rfl]
    have hrest : processProjects (bad :: post) = .ok ps2 := by
      simp [processProjects, hbad, processProjects_all_ok post ps2 h2]
    exact processProjects_ok_append pre ps1 (bad :: post) ps2 h1 hrest
  · intro pre bad post ps1 e h1 hbad
    rw [show load_projects_data (.ok (.arr (pre ++ bad :: post)))
          = processProjects (pre ++ bad :: post) from rfl]
    have hrest : processProjects (bad :: post) = .error e := by
      simp [processProjects, hbad]
    exact processProjects_error_append pre ps1 (bad :: post) e h1 hrest
  · intro pre bad post ns e h1 hbad
    rw [show work_comp (.arr (pre ++ bad :: post))
          = Except.bind (mapPy company_section (pre ++ bad :: post))
              (fun sections => Except.ok (.group "center" [.group "vstack" sections]))
          from rfl,
        mapPy_append_error company_section pre ns bad post e h1 hbad]
    rfl
  · intro pre bad post ns e h1 hbad
    rw [show education_comp (.arr (pre ++ bad :: post))
          = Except.bind (mapPy education_card (pre ++ bad :: post))
              (fun cards => Except.ok (.group "center"
                 [.group "grid" (cards.map fun c => .group "card" [c])]))
          from rfl,
        mapPy_append_error education_card pre ns bad post e h1 hbad]
    rfl

/-- C8, witness: an invalid dict record among valid project records is
dropped, a non-dict project record aborts the projects load, and a work
record failure aborts the work page. -/
theorem claim_C8_witness :
    processProject exBadProjectJson = .ok none
      ∧ load_projects_data (.ok (.arr [exBadProjectJson, exProjectJson])) = .ok [exProjectVal]
      ∧ processProject (.num 5) = .error .attributeError
      ∧ load_projects_data (.ok (.arr [.num 5, exProjectJson])) = .error .attributeError
      ∧ company_section exBadCompanyJson = .error .keyError
      ∧ work_comp (.arr [exBadCompanyJson]) = .error .keyError := by
  refine ⟨rfl, ?_, rfl, ?_, rfl, ?_⟩
  · exact claim_C8_amended.1 [] exBadProjectJson [exProjectJson] [] [exProjectVal] rfl rfl rfl
  · exact claim_C8_amended.2.1 [] (.num 5) [exProjectJson] [] .attributeError rfl rfl
  · exact claim_C8_amended.2.2.1 [] exBadCompanyJson [] [] .keyError rfl rfl

theorem badgeTexts_linked_logo (a b : String) : (linked_logo a b).badgeTexts = [] := by
  unfold linked_logo
  split <;> rfl

theorem texts_linked_logo (a b : String) : (linked_logo a b).texts = [] := by
  unfold linked_logo
  split <;> rfl

/-- C3, counterexample: on the example input of the spec
(`"GPA: 3.73/4.0"`), the badge of the education card displays the whole
`details` string, not the post-colon portion `"3.73/4.0"` that the
claimed split would produce — no colon splitting happens in the code. -/
theorem claim_C3_counterexample :
    (education_card exEducationJson).map Node.badgeTexts
        = .ok ["GPA: 3.73/4.0", "GPA: 3.73/4.0"]
      ∧ specGpaSplit "GPA:" "GPA: 3.73/4.0" = ("GPA:", "3.73/4.0")
      ∧ ("GPA: 3.73/4.0" : String) ≠ "3.73/4.0" :=
  ⟨rfl, rfl, by decide⟩

/-- C3, amended: the education card renders the `details` string verbatim
inside the GPA badge (once in the desktop layout and once in the mobile
layout) and shows the fixed labels `"GPA: "` and `"GPA:"` regardless of
whether `details` contains a colon — the split described by the claim
does not occur. -/
theorem claim_C3_amended : ∀ (edu : Json) (c : Node),
    education_card edu = .ok c →
    c.badgeTexts = [educationDetailsValue edu, educationDetailsValue edu]
      ∧ "GPA: " ∈ c.texts ∧ "GPA:" ∈ c.texts := by
  intro edu c h
  cases edu with
  | null =>
    rw [show education_card .null
          = (Except.error .attributeError : Except PyExc Node) from rfl] at h
    exact absurd h (by simp)
  | bool b =>
    rw [show education_card (.bool b)
          = (Except.error .attributeError : Except PyExc Node) from rfl] at h
    exact absurd h (by simp)
  | num n =>
    rw [show education_card (.num n)
          = (Except.error .attributeError : Except PyExc Node) from rfl] at h
    exact absurd h (by simp)
  | str s =>
    rw [show education_card (.str s)
          = (Except.error .attributeError : Except PyExc Node) from rfl] at h
    exact absurd h (by simp)
  | arr xs =>
    rw [show education_card (.arr xs)
          = (Except.error .attributeError : Except PyExc Node) from rfl] at h
    exact absurd h (by simp)
  | obj fields =>
    unfold education_card at h
    simp only [except_bind_ok, Except.ok.injEq] at h
    obtain ⟨logo, hlogo, campus, hcampus, cardHref, hhref, details, hdetails,
            flp, hflp, titleSec, htitle, campusPath, hcpath, desk, hdesk,
            mob, hmob, hc⟩ := h
    unfold title_section at htitle
    simp only [except_bind_ok, Except.ok.injEq] at htitle
    obtain ⟨inst, hinst, href2, hhref2, htEq⟩ := htitle
    unfold desktop_education_details at hdesk
    simp only [except_bind_ok, Except.ok.injEq] at hdesk
    obtain ⟨degree, hdeg, location, hloc, dateRange, hdate, hdEq⟩ := hdesk
    unfold mobile_education_details at hmob
    simp only [except_bind_ok, Except.ok.injEq] at hmob
    obtain ⟨degree2, hdeg2, location2, hloc2, dateRange2, hdate2, hmEq⟩ := hmob
    simp only [Json.getAttrD, Except.ok.injEq] at hdetails
    subst hc
    subst htEq
    subst hdEq
    subst hmEq
    refine ⟨?_, ?_, ?_⟩
    · by_cases hcp : campusPath = "" <;>
        simp [hcp, Node.badgeTexts, Node.badgeTextsList, Node.texts, gpa_badge,
              badgeTexts_linked_logo, educationDetailsValue, hdetails]
    · by_cases hcp : campusPath = "" <;>
        simp [hcp, Node.texts, Node.textsList, texts_linked_logo, gpa_badge]
    · by_cases hcp : campusPath = "" <;>
        simp [hcp, Node.texts, Node.textsList, texts_linked_logo, gpa_badge]

/-- C3, witness for the amended claim at the example record of the spec. -/
theorem claim_C3_witness :
    education_card exEducationJson = .ok exEducationNode
      ∧ exEducationNode.badgeTexts = ["GPA: 3.73/4.0", "GPA: 3.73/4.0"]
      ∧ "GPA: " ∈ exEducationNode.texts ∧ "GPA:" ∈ exEducationNode.texts := by
  have h := claim_C3_amended exEducationJson exEducationNode rfl
  exact ⟨rfl, h.1, h.2.1, h.2.2⟩

end Portfolio
